import Mathlib

/-!
Verification of the gcp-realtime-data-pipeline repository.

Shallow embedding of the two core components:
  - src/dataflow-pipeline/streaming_pipeline.py  (event enrichment, routing,
    warehouse formatting, object-store formatting, the GCS write branch)
  - src/cloud-functions/table-manager/main.py and table_schemas.py
    (schema catalog and idempotent table provisioning)

Python JSON values are modelled by the inductive type `Json`; Python dicts
(which preserve insertion order and have unique keys) are modelled as
ordered association lists with unique keys maintained by the operations.
Timestamps use a record `PyDateTime` mirroring Python naive datetimes, with
`fromisoformat` modelling `datetime.fromisoformat` as accepted by the code
paths in the source, `isoformat` modelling `datetime.isoformat`, and the
zero-padded formatting helpers mirroring the f-string format specifiers.
-/

/-- Model of a parsed Python JSON value.  Numbers are modelled as integers;
fractional literals are outside the model (no claim computes on numbers). -/
inductive Json where
  | null : Json
  | bool (b : Bool) : Json
  | num (n : Int) : Json
  | str (s : String) : Json
  | arr (elems : List Json) : Json
  | obj (fields : List (String × Json)) : Json

/-- A Python dict with string keys, as produced by json.loads on an object:
an insertion-ordered association list with unique keys. -/
abbrev Dict := List (String × Json)

/-- Model of dict.get: first binding of the key, if any. -/
def dictGet (d : Dict) (k : String) : Option Json :=
  match d with
  | [] => none
  | kv :: rest => if kv.1 == k then some kv.2 else dictGet rest k

/-- Model of dict assignment d[k] = v: updates the existing binding in place
(keeping its position) or appends a new binding at the end. -/
def dictSet (d : Dict) (k : String) (v : Json) : Dict :=
  match d with
  | [] => [(k, v)]
  | kv :: rest => if kv.1 == k then (k, v) :: rest else kv :: dictSet rest k v

/-- Model of the dict comprehension that drops one key. -/
def dictErase (d : Dict) (k : String) : Dict :=
  match d with
  | [] => []
  | kv :: rest => if kv.1 == k then dictErase rest k else kv :: dictErase rest k

/-- Python truthiness of a JSON value (None, False, 0, "", [] and the empty
object are falsy). -/
def Json.truthy : Json → Bool
  | .null => false
  | .bool b => b
  | .num n => n != 0
  | .str s => s != ""
  | .arr xs => !xs.isEmpty
  | .obj kvs => !kvs.isEmpty

/-- Python equality test of a JSON value against a string literal. -/
def Json.isStr : Json → String → Bool
  | .str s, t => s == t
  | _, _ => false

/-- Python str() of a JSON value, as used by f-string interpolation.
For containers the JSON rendering stands in for Python repr; no claim
depends on that case. -/
def pyStr : Json → String
  | .null => "None"
  | .bool true => "True"
  | .bool false => "False"
  | .num n => toString n
  | .str s => s
  | .arr _ => "<list>"
  | .obj _ => "<dict>"

/-- Zero-padded decimal rendering, mirroring Python format specifiers such
as 04d and 02d (pads to the width, never truncates). -/
def padNum (w n : Nat) : String :=
  let s := toString n
  if s.length < w then String.mk (List.replicate (w - s.length) '0') ++ s else s

/-- Model of Python str.replace with a one-character pattern, as in the
source's replace of the character Z by the string +00:00. -/
def replaceCharStr (s : String) (c : Char) (r : String) : String :=
  String.join (s.data.map (fun ch => if ch = c then r else String.singleton ch))

/-- A Python datetime.date value. -/
structure PyDate where
  year : Nat
  month : Nat
  day : Nat
deriving DecidableEq, Repr

/-- A Python naive datetime value. -/
structure PyDateTime where
  year : Nat
  month : Nat
  day : Nat
  hour : Nat
  minute : Nat
  second : Nat
  microsecond : Nat
deriving DecidableEq, Repr

/-- Model of datetime.date(): the calendar-date part. -/
def PyDateTime.date (dt : PyDateTime) : PyDate :=
  ⟨dt.year, dt.month, dt.day⟩

/-- Model of date.isoformat(): YYYY-MM-DD. -/
def PyDate.isoformat (d : PyDate) : String :=
  padNum 4 d.year ++ "-" ++ padNum 2 d.month ++ "-" ++ padNum 2 d.day

/-- Model of datetime.isoformat() on a naive datetime: the microseconds part
is printed (six digits) exactly when it is nonzero. -/
def PyDateTime.isoformat (dt : PyDateTime) : String :=
  padNum 4 dt.year ++ "-" ++ padNum 2 dt.month ++ "-" ++ padNum 2 dt.day ++ "T" ++
  padNum 2 dt.hour ++ ":" ++ padNum 2 dt.minute ++ ":" ++ padNum 2 dt.second ++
  (if dt.microsecond = 0 then "" else "." ++ padNum 6 dt.microsecond)

/-- Model of strftime with format %Y%m%d%H%M. -/
def PyDateTime.strftimeYmdHM (dt : PyDateTime) : String :=
  padNum 4 dt.year ++ padNum 2 dt.month ++ padNum 2 dt.day ++
  padNum 2 dt.hour ++ padNum 2 dt.minute

def digitVal (c : Char) : Option Nat :=
  if c.isDigit then some (c.toNat - 48) else none

def parse2digits : List Char → Option (Nat × List Char)
  | a :: b :: rest => do
    let x ← digitVal a
    let y ← digitVal b
    some (x * 10 + y, rest)
  | _ => none

def isLeapYear (y : Nat) : Bool :=
  (y % 4 == 0 && y % 100 != 0) || y % 400 == 0

def daysInMonth (y m : Nat) : Nat :=
  if m = 2 then (if isLeapYear y then 29 else 28)
  else if m = 4 ∨ m = 6 ∨ m = 9 ∨ m = 11 then 30
  else 31

/-- Validates an ISO timezone suffix (empty, or a sign followed by
HH:MM, optionally :SS and a six-digit fraction), as accepted by
datetime.fromisoformat; the offset value is irrelevant downstream because
the code only reads the datetime's own calendar fields. -/
def validTzTail : List Char → Bool
  | [] => true
  | c :: rest =>
    (c = '+' || c = '-') &&
    (match parse2digits rest with
     | some (hh, ':' :: rest2) =>
       (match parse2digits rest2 with
        | some (mm, rest3) =>
          hh * 60 + mm < 1440 && mm < 60 &&
          (match rest3 with
           | [] => true
           | ':' :: rest4 =>
             (match parse2digits rest4 with
              | some (ss, rest5) =>
                ss < 60 &&
                (match rest5 with
                 | [] => true
                 | '.' :: rest6 => rest6.length == 6 && rest6.all Char.isDigit
                 | _ => false)
              | none => false)
           | _ => false)
        | none => false)
     | _ => false)

def digitsToNat (ds : List Char) : Nat :=
  ds.foldl (fun acc c => acc * 10 + (c.toNat - 48)) 0

/-- Parses the time-of-day portion HH[:MM[:SS[.fff or .ffffff]]], returning
hour, minute, second, microsecond and the unconsumed (timezone) tail. -/
def parseTimePart (cs : List Char) : Option (Nat × Nat × Nat × Nat × List Char) :=
  match parse2digits cs with
  | none => none
  | some (hh, rest) =>
    match rest with
    | ':' :: rest1 =>
      (match parse2digits rest1 with
       | none => none
       | some (mm, rest2) =>
         match rest2 with
         | ':' :: rest3 =>
           (match parse2digits rest3 with
            | none => none
            | some (ss, rest4) =>
              match rest4 with
              | '.' :: rest5 =>
                let digs := rest5.takeWhile Char.isDigit
                let rest6 := rest5.drop digs.length
                if digs.length = 3 then some (hh, mm, ss, digitsToNat digs * 1000, rest6)
                else if digs.length = 6 then some (hh, mm, ss, digitsToNat digs, rest6)
                else none
              | _ => some (hh, mm, ss, 0, rest4))
         | _ => some (hh, mm, 0, 0, rest2))
    | _ => some (hh, 0, 0, 0, rest)

/-- Model of datetime.fromisoformat (the classic accepted grammar:
YYYY-MM-DD, optionally a separator character, HH[:MM[:SS[.fff or
.ffffff]]], and an optional signed offset).  Returns none where the Python
call raises ValueError. -/
def fromisoformat (s : String) : Option PyDateTime :=
  match s.data with
  | y1 :: y2 :: y3 :: y4 :: '-' :: m1 :: m2 :: '-' :: d1 :: d2 :: rest => do
    let a ← digitVal y1
    let b ← digitVal y2
    let c ← digitVal y3
    let d ← digitVal y4
    let y := ((a * 10 + b) * 10 + c) * 10 + d
    let e ← digitVal m1
    let f ← digitVal m2
    let mo := e * 10 + f
    let g ← digitVal d1
    let h ← digitVal d2
    let dy := g * 10 + h
    if 1 ≤ y ∧ y ≤ 9999 ∧ 1 ≤ mo ∧ mo ≤ 12 ∧ 1 ≤ dy ∧ dy ≤ daysInMonth y mo then
      match rest with
      | [] => some ⟨y, mo, dy, 0, 0, 0, 0⟩
      | _sep :: timecs =>
        match parseTimePart timecs with
        | some (hh, mm, ss, us, tzrest) =>
          if hh < 24 && mm < 60 && ss < 60 && validTzTail tzrest then
            some ⟨y, mo, dy, hh, mm, ss, us⟩
          else none
        | none => none
    else none
  | _ => none

example : fromisoformat "2024-03-05T14:07:22.451+00:00" =
    some ⟨2024, 3, 5, 14, 7, 22, 451000⟩ := by decide

example : fromisoformat "" = none := by decide

example : replaceCharStr "2024-03-05T14:07:22.451Z" 'Z' "+00:00" =
    "2024-03-05T14:07:22.451+00:00" := by decide

/-! ## Model of json.loads and json.dumps -/

def jsonSkipWs : List Char → List Char
  | c :: cs => if c = ' ' ∨ c = '\t' ∨ c = '\n' ∨ c = '\r' then jsonSkipWs cs else c :: cs
  | [] => []

def escChar : Char → Option Char
  | '"' => some '"'
  | '\\' => some '\\'
  | '/' => some '/'
  | 'b' => some (Char.ofNat 8)
  | 'f' => some (Char.ofNat 12)
  | 'n' => some '\n'
  | 'r' => some '\r'
  | 't' => some '\t'
  | _ => none

def hexVal (c : Char) : Option Nat :=
  if c.isDigit then some (c.toNat - 48)
  else if 'a' ≤ c ∧ c ≤ 'f' then some (c.toNat - 87)
  else if 'A' ≤ c ∧ c ≤ 'F' then some (c.toNat - 55)
  else none

/-- Parses the remainder of a JSON string literal (after the opening quote),
returning the decoded characters and the unconsumed input. -/
def parseJsonStrChars : List Char → Option (List Char × List Char)
  | [] => none
  | '"' :: rest => some ([], rest)
  | '\\' :: 'u' :: a :: b :: c :: d :: rest => do
    let ha ← hexVal a
    let hb ← hexVal b
    let hc ← hexVal c
    let hd ← hexVal d
    let (s, r) ← parseJsonStrChars rest
    some (Char.ofNat (((ha * 16 + hb) * 16 + hc) * 16 + hd) :: s, r)
  | '\\' :: e :: rest => do
    let c ← escChar e
    let (s, r) ← parseJsonStrChars rest
    some (c :: s, r)
  | c :: rest =>
    if c.toNat < 32 then none
    else do
      let (s, r) ← parseJsonStrChars rest
      some (c :: s, r)

def takeDigits : List Char → List Char × List Char
  | c :: cs =>
    if c.isDigit then
      let (ds, r) := takeDigits cs
      (c :: ds, r)
    else ([], c :: cs)
  | [] => ([], [])

/-- Parses a JSON integer literal.  Fractional and exponent forms are outside
the model (the whole document then fails to parse, which only makes the
drop-on-parse-failure path fire; no claim computes on numbers). -/
def parseJsonNum (cs : List Char) : Option (Int × List Char) :=
  let core : List Char → Option (Nat × List Char) := fun cs0 =>
    match takeDigits cs0 with
    | ([], _) => none
    | (ds, r) =>
      match r with
      | '.' :: _ => none
      | 'e' :: _ => none
      | 'E' :: _ => none
      | _ => some (digitsToNat ds, r)
  match cs with
  | '-' :: cs1 => (core cs1).map (fun p => (-(p.1 : Int), p.2))
  | _ => (core cs).map (fun p => ((p.1 : Int), p.2))

mutual

/-- Fuel-bounded recursive-descent JSON value parser (model of json.loads). -/
def parseJsonVal : Nat → List Char → Option (Json × List Char)
  | 0, _ => none
  | fuel + 1, cs =>
    match jsonSkipWs cs with
    | 'n' :: 'u' :: 'l' :: 'l' :: rest => some (.null, rest)
    | 't' :: 'r' :: 'u' :: 'e' :: rest => some (.bool true, rest)
    | 'f' :: 'a' :: 'l' :: 's' :: 'e' :: rest => some (.bool false, rest)
    | '"' :: rest => do
      let (s, r) ← parseJsonStrChars rest
      some (.str (String.mk s), r)
    | '[' :: rest => do
      let (xs, r) ← parseJsonArrItems fuel (jsonSkipWs rest)
      some (.arr xs, r)
    | c :: rest =>
      if c = Char.ofNat 123 then do
        let (kvs, r) ← parseJsonObjItems fuel (jsonSkipWs rest)
        some (.obj (kvs.foldl (fun d kv => dictSet d kv.1 kv.2) []), r)
      else
        parseJsonNum (c :: rest) |>.map (fun p => (.num p.1, p.2))
    | [] => none

/-- Parses array items up to the closing bracket (input already
whitespace-skipped). -/
def parseJsonArrItems : Nat → List Char → Option (List Json × List Char)
  | 0, _ => none
  | fuel + 1, cs =>
    match cs with
    | ']' :: rest => some ([], rest)
    | _ => do
      let (x, r1) ← parseJsonVal fuel cs
      match jsonSkipWs r1 with
      | ']' :: r2 => some ([x], r2)
      | ',' :: r2 => do
        let (xs, r3) ← parseJsonArrItems fuel (jsonSkipWs r2)
        match xs, r3 with
        | _, _ => some (x :: xs, r3)
      | _ => none

/-- Parses object members up to the closing brace (input already
whitespace-skipped); duplicate keys are resolved later by a dict fold, the
last occurrence winning as in Python. -/
def parseJsonObjItems : Nat → List Char → Option (List (String × Json) × List Char)
  | 0, _ => none
  | fuel + 1, cs =>
    match cs with
    | c :: rest =>
      if c = Char.ofNat 125 then some ([], rest)
      else if c = '"' then do
        let (k, r1) ← parseJsonStrChars rest
        match jsonSkipWs r1 with
        | ':' :: r2 => do
          let (v, r3) ← parseJsonVal fuel (jsonSkipWs r2)
          match jsonSkipWs r3 with
          | c2 :: r4 =>
            if c2 = Char.ofNat 125 then some ([(String.mk k, v)], r4)
            else if c2 = ',' then do
              let (kvs, r5) ← parseJsonObjItems fuel (jsonSkipWs r4)
              some ((String.mk k, v) :: kvs, r5)
            else none
          | [] => none
        | _ => none
      else none
    | [] => none

end

/-- Model of json.loads: parse one value, then require only trailing
whitespace.  Returns none where Python raises JSONDecodeError. -/
def jsonParse (s : String) : Option Json :=
  match parseJsonVal (s.data.length + 1) s.data with
  | some (j, rest) => if jsonSkipWs rest = [] then some j else none
  | none => none

def hexDigitChar (n : Nat) : Char :=
  if n < 10 then Char.ofNat (48 + n) else Char.ofNat (87 + n)

def jsonEscapeChar (c : Char) : String :=
  if c = '"' then "\\\""
  else if c = '\\' then "\\\\"
  else if c = '\n' then "\\n"
  else if c = '\t' then "\\t"
  else if c = '\r' then "\\r"
  else if c = Char.ofNat 8 then "\\b"
  else if c = Char.ofNat 12 then "\\f"
  else if c.toNat < 32 then "\\u00" ++ String.mk [hexDigitChar (c.toNat / 16), hexDigitChar (c.toNat % 16)]
  else String.singleton c

def jsonEscape (s : String) : String :=
  String.join (s.data.map jsonEscapeChar)

mutual

/-- Model of json.dumps with ensure_ascii False and the default separators. -/
def dumps : Json → String
  | .null => "null"
  | .bool true => "true"
  | .bool false => "false"
  | .num n => toString n
  | .str s => "\"" ++ jsonEscape s ++ "\""
  | .arr xs => "[" ++ dumpsList xs ++ "]"
  | .obj kvs => "\x7b" ++ dumpsObj kvs ++ "\x7d"

def dumpsList : List Json → String
  | [] => ""
  | [x] => dumps x
  | x :: y :: xs => dumps x ++ ", " ++ dumpsList (y :: xs)

def dumpsObj : List (String × Json) → String
  | [] => ""
  | [(k, v)] => "\"" ++ jsonEscape k ++ "\": " ++ dumps v
  | (k, v) :: kv2 :: kvs => "\"" ++ jsonEscape k ++ "\": " ++ dumps v ++ ", " ++ dumpsObj (kv2 :: kvs)

end

/-! ## Embedding of src/dataflow-pipeline/streaming_pipeline.py -/

/-- EventProcessor.process, branch deriving event_date (lines 45-61 of
streaming_pipeline.py): for order the order_date field, for inventory and
user_activity the timestamp field, truthiness-guarded, parse failure raising
ValueError (error), a non-string raising AttributeError at the replace call,
otherwise the processing date. -/
def event_date_of (event_type : Json) (d : Dict) (now : PyDateTime) : Except String PyDate :=
  if event_type.isStr "order" then
    let order_date := (dictGet d "order_date").getD .null
    if order_date.truthy then
      match order_date with
      | .str s =>
        match fromisoformat (replaceCharStr s 'Z' "+00:00") with
        | some dt => .ok dt.date
        | none => .error "ValueError"
      | _ => .error "AttributeError"
    else .ok now.date
  else if event_type.isStr "inventory" || event_type.isStr "user_activity" then
    let timestamp := (dictGet d "timestamp").getD .null
    if timestamp.truthy then
      match timestamp with
      | .str s =>
        match fromisoformat (replaceCharStr s 'Z' "+00:00") with
        | some dt => .ok dt.date
        | none => .error "ValueError"
      | _ => .error "AttributeError"
    else .ok now.date
  else .ok now.date

/-- EventProcessor.process from the moment the payload is parsed (lines
34-66): extract event_type, return nothing when it is falsy, stamp
processed_timestamp, derive event_date, and yield the pair of the raw
event_type value and the enriched dict.  Errors are the exceptions that the
surrounding try block catches. -/
def EventProcessor_processParsed (j : Json) (now : PyDateTime) : Except String (List (Json × Dict)) :=
  match j with
  | .obj kvs =>
    let event_type := (dictGet kvs "event_type").getD .null
    if event_type.truthy then
      let d := dictSet kvs "processed_timestamp" (.str (now.isoformat ++ "Z"))
      match event_date_of event_type d now with
      | .ok ed => .ok [(event_type, dictSet d "event_date" (.str ed.isoformat))]
      | .error e => .error e
    else .ok []
  | _ => .error "AttributeError"

/-- EventProcessor.process on the raw Pub/Sub bytes, before the catch: utf-8
decoding then JSON parsing then the parsed-payload processing. -/
def EventProcessor_processBytes (element : ByteArray) (now : PyDateTime) :
    Except String (List (Json × Dict)) :=
  match String.fromUTF8? element with
  | none => .error "UnicodeDecodeError"
  | some s =>
    match jsonParse s with
    | none => .error "JSONDecodeError"
    | some j => EventProcessor_processParsed j now

/-- EventProcessor.process: the whole body runs inside try/except, so any
exception is logged and the element yields nothing (lines 32-69). -/
def EventProcessor_process (element : ByteArray) (now : PyDateTime) : List (Json × Dict) :=
  match EventProcessor_processBytes element now with
  | .ok l => l
  | .error _ => []

/-- The DoFn behaviour from the moment of a successful parse: exceptions
thrown after parsing are caught by the same try block and yield nothing. -/
def EventProcessor_runParsed (j : Json) (now : PyDateTime) : List (Json × Dict) :=
  match EventProcessor_processParsed j now with
  | .ok l => l
  | .error _ => []

/-- The category-to-table dict literal of FormatForBigQuery.process
(streaming_pipeline.py lines 88-92), dict.get modelled as chained key
comparison. -/
def table_mapping_pipeline (event_type : String) : Option String :=
  if event_type == "order" then some "orders"
  else if event_type == "inventory" then some "inventory"
  else if event_type == "user_activity" then some "user_activity"
  else none

/-- FormatForBigQuery.process (lines 75-98): look the raw event_type value
up in the table mapping; on a hit attach the _table_name routing key and
yield, otherwise yield nothing.  An unhashable event_type value would raise
TypeError (uncaught in the source). -/
def FormatForBigQuery_process (e : Json × Dict) : Except String (List Dict) :=
  match e.1 with
  | .arr _ => .error "TypeError: unhashable type"
  | .obj _ => .error "TypeError: unhashable type"
  | .str s =>
    match table_mapping_pipeline s with
    | some table_name => .ok [dictSet e.2 "_table_name" (.str table_name)]
    | none => .ok []
  | _ => .ok []

/-- The FormatForBigQuery ParDo over a bag of processed events; a raised
exception crashes the bundle, hence the Except. -/
def bigquery_events : List (Json × Dict) → Except String (List Dict)
  | [] => .ok []
  | e :: rest => do
    let l ← FormatForBigQuery_process e
    let r ← bigquery_events rest
    .ok (l ++ r)

/-- The per-table filter lambda of run_pipeline (lines 217, 229, 241):
x.get of _table_name compared with the table name. -/
def filter_table (t : String) (x : Dict) : Bool :=
  match dictGet x "_table_name" with
  | some v => v.isStr t
  | none => false

/-- The per-table removal lambda of run_pipeline (lines 218, 230, 242): the
dict comprehension dropping the _table_name key. -/
def remove_table_name (x : Dict) : Dict :=
  dictErase x "_table_name"

/-- One WriteToBigQuery branch of run_pipeline (lines 215-248): filter the
formatted events by table name and strip the routing key; what remains is
the list of rows handed to the warehouse writer for that table. -/
def table_branch_rows (t : String) (bq : List Dict) : List Dict :=
  (bq.filter (fun x => filter_table t x)).map remove_table_name

/-- The folder-path f-string of FormatForGCS.process (line 132). -/
def gcs_folder_path (et : String) (dt : PyDateTime) : String :=
  "output/" ++ et ++ "/" ++ padNum 4 dt.year ++ "/" ++ padNum 2 dt.month ++ "/" ++
  padNum 2 dt.day ++ "/" ++ padNum 2 dt.hour ++ "/" ++ padNum 2 dt.minute

/-- The filename f-string of FormatForGCS.process (line 135). -/
def gcs_filename (et : String) (dt : PyDateTime) : String :=
  et ++ "_" ++ dt.strftimeYmdHM ++ padNum 2 dt.second ++
  padNum 3 (dt.microsecond / 1000) ++ ".json"

/-- FormatForGCS.process before the catch (lines 114-140): pick the
category's timestamp field (processing time for unknown categories), parse
it (processing time when falsy), build the folder path and filename from
the parsed datetime, and pair the full path with the serialized event. -/
def FormatForGCS_body (e : Json × Dict) (now : PyDateTime) : Except String (String × String) :=
  let event_type := e.1
  let event_data := e.2
  let timestamp_str : Json :=
    if event_type.isStr "order" then (dictGet event_data "order_date").getD .null
    else if event_type.isStr "inventory" || event_type.isStr "user_activity" then
      (dictGet event_data "timestamp").getD .null
    else .str (now.isoformat ++ "Z")
  let dtE : Except String PyDateTime :=
    if timestamp_str.truthy then
      match timestamp_str with
      | .str s =>
        match fromisoformat (replaceCharStr s 'Z' "+00:00") with
        | some dt => .ok dt
        | none => .error "ValueError"
      | _ => .error "AttributeError"
    else .ok now
  match dtE with
  | .error err => .error err
  | .ok dt =>
    let folder_path := gcs_folder_path (pyStr event_type) dt
    let filename := gcs_filename (pyStr event_type) dt
    .ok (folder_path ++ "/" ++ filename, dumps (.obj event_data))

/-- FormatForGCS.process: the body runs inside try/except, so any exception
yields nothing (lines 116-143). -/
def FormatForGCS_process (e : Json × Dict) (now : PyDateTime) : List (String × String) :=
  match FormatForGCS_body e now with
  | .ok r => [r]
  | .error _ => []

/-- The lambda of the FormatJSONForGCS step (run_pipeline line 254): keep
only the JSON content of the (file_path, json_content) pair. -/
def formatJSONForGCS (x : String × String) : String := x.2

/-- The gcs_events branch of run_pipeline (lines 251-255): FormatForGCS over
the processed events, then the content-only projection. -/
def gcs_events (processed : List (Json × Dict)) (now : PyDateTime) : List String :=
  (processed.flatMap (fun e => FormatForGCS_process e now)).map formatJSONForGCS

/-- The destination file naming of the WriteToText sink (run_pipeline lines
264-270): the file path prefix is the configured output prefix joined with
the literal "output", the runtime inserts its window/shard infix, and the
configured suffix is ".json". -/
def writeToText_path (gcsRoot shard : String) : String :=
  gcsRoot ++ "/output" ++ shard ++ ".json"

/-! ## Embedding of src/cloud-functions/table-manager -/

/-- A leaf BigQuery schema field (the nested RECORD members in the source
are all leaves). -/
structure SubField where
  name : String
  field_type : String
  mode : String
deriving DecidableEq, Repr

/-- A top-level BigQuery SchemaField: name, type, mode and (for RECORD
fields) the nested leaf fields. -/
structure SchemaField where
  name : String
  field_type : String
  mode : String
  fields : List SubField
deriving DecidableEq, Repr

/-- get_orders_schema from table_schemas.py. -/
def get_orders_schema : List SchemaField :=
  [⟨"event_type", "STRING", "REQUIRED", []⟩,
   ⟨"order_id", "STRING", "REQUIRED", []⟩,
   ⟨"customer_id", "STRING", "REQUIRED", []⟩,
   ⟨"order_date", "TIMESTAMP", "REQUIRED", []⟩,
   ⟨"status", "STRING", "REQUIRED", []⟩,
   ⟨"items", "RECORD", "REPEATED",
     [⟨"product_id", "STRING", "REQUIRED"⟩,
      ⟨"product_name", "STRING", "REQUIRED"⟩,
      ⟨"quantity", "INTEGER", "REQUIRED"⟩,
      ⟨"price", "FLOAT", "REQUIRED"⟩]⟩,
   ⟨"shipping_address", "RECORD", "REQUIRED",
     [⟨"street", "STRING", "REQUIRED"⟩,
      ⟨"city", "STRING", "REQUIRED"⟩,
      ⟨"country", "STRING", "REQUIRED"⟩]⟩,
   ⟨"total_amount", "FLOAT", "REQUIRED", []⟩,
   ⟨"processed_timestamp", "TIMESTAMP", "NULLABLE", []⟩,
   ⟨"event_date", "DATE", "NULLABLE", []⟩]

/-- get_inventory_schema from table_schemas.py. -/
def get_inventory_schema : List SchemaField :=
  [⟨"event_type", "STRING", "REQUIRED", []⟩,
   ⟨"inventory_id", "STRING", "REQUIRED", []⟩,
   ⟨"product_id", "STRING", "REQUIRED", []⟩,
   ⟨"warehouse_id", "STRING", "REQUIRED", []⟩,
   ⟨"quantity_change", "INTEGER", "REQUIRED", []⟩,
   ⟨"reason", "STRING", "REQUIRED", []⟩,
   ⟨"timestamp", "TIMESTAMP", "REQUIRED", []⟩,
   ⟨"processed_timestamp", "TIMESTAMP", "NULLABLE", []⟩,
   ⟨"event_date", "DATE", "NULLABLE", []⟩]

/-- get_user_activity_schema from table_schemas.py. -/
def get_user_activity_schema : List SchemaField :=
  [⟨"event_type", "STRING", "REQUIRED", []⟩,
   ⟨"user_id", "STRING", "REQUIRED", []⟩,
   ⟨"activity_type", "STRING", "REQUIRED", []⟩,
   ⟨"ip_address", "STRING", "REQUIRED", []⟩,
   ⟨"user_agent", "STRING", "REQUIRED", []⟩,
   ⟨"timestamp", "TIMESTAMP", "REQUIRED", []⟩,
   ⟨"metadata", "RECORD", "REQUIRED",
     [⟨"session_id", "STRING", "REQUIRED"⟩,
      ⟨"platform", "STRING", "REQUIRED"⟩]⟩,
   ⟨"processed_timestamp", "TIMESTAMP", "NULLABLE", []⟩,
   ⟨"event_date", "DATE", "NULLABLE", []⟩]

/-- get_table_schema from table_schemas.py: the schemas dict literal,
dict.get modelled as chained key comparison; none where the source raises
ValueError. -/
def get_table_schema (table_name : String) : Option (List SchemaField) :=
  if table_name == "orders" then some get_orders_schema
  else if table_name == "inventory" then some get_inventory_schema
  else if table_name == "user_activity" then some get_user_activity_schema
  else none

/-- The time partitioning configuration of a BigQuery table descriptor. -/
structure TimePartitioning where
  type_ : String
  field : String
deriving DecidableEq, Repr

/-- The BigQuery table descriptor built by create_bigquery_table. -/
structure BQTable where
  table_ref : String
  schema : List SchemaField
  time_partitioning : Option TimePartitioning
  clustering_fields : Option (List String)
  labels : List (String × String)
  description : String
deriving DecidableEq, Repr

/-- The descriptor construction of create_bigquery_table (main.py lines
130-152): day partitioning on event_date when the schema has such a field,
per-table clustering, and the environment, managed_by and table_type
labels. -/
def create_table_descriptor (project_id dataset_id table_name environment : String)
    (schema : List SchemaField) : BQTable :=
  let partitioning :=
    if (schema.map SchemaField.name).contains "event_date" then
      some ⟨"DAY", "event_date"⟩
    else none
  let clustering :=
    if table_name == "orders" then some ["customer_id", "status"]
    else if table_name == "inventory" then some ["product_id", "warehouse_id"]
    else if table_name == "user_activity" then some ["user_id", "activity_type"]
    else none
  { table_ref := project_id ++ "." ++ dataset_id ++ "." ++ table_name
  , schema := schema
  , time_partitioning := partitioning
  , clustering_fields := clustering
  , labels := [("environment", environment), ("managed_by", "cloud_function"),
               ("table_type", table_name)]
  , description := "Auto-created table for " ++ table_name ++ " events in " ++
      environment ++ "." }

/-- External warehouse state: the provisioned tables, keyed by
fully-qualified identifier, each carrying its descriptor. -/
abbrev Warehouse := List (String × BQTable)

/-- table_exists from main.py (lines 118-124): get_table succeeding versus
raising NotFound. -/
def table_exists (wh : Warehouse) (table_id : String) : Bool :=
  wh.any (fun e => e.1 == table_id)

/-- The warehouse's atomic create semantics: Conflict exactly when the
identifier is already present, otherwise the table is added. -/
inductive CreateOutcome where
  | created (wh : Warehouse) : CreateOutcome
  | conflict : CreateOutcome

def warehouse_create (wh : Warehouse) (table_id : String) (tbl : BQTable) : CreateOutcome :=
  if wh.any (fun e => e.1 == table_id) then .conflict
  else .created ((table_id, tbl) :: wh)

/-- create_bigquery_table (main.py lines 126-161) against the honest
warehouse: fetch the catalog schema (a missing schema raises ValueError,
re-raised by the generic handler), build the descriptor, issue the create;
Conflict is swallowed as success, leaving the warehouse unchanged. -/
def create_bigquery_table (wh : Warehouse) (project_id dataset_id table_name environment : String) :
    Except String Warehouse :=
  match get_table_schema table_name with
  | none => .error ("No schema defined for table: " ++ table_name)
  | some schema =>
    let table := create_table_descriptor project_id dataset_id table_name environment schema
    match warehouse_create wh table.table_ref table with
    | .conflict => .ok wh
    | .created wh2 => .ok wh2

/-- The possible answers of the external create call, for stating how
create_bigquery_table's handlers treat an arbitrary warehouse response. -/
inductive BQCreateResponse where
  | success : BQCreateResponse
  | conflict : BQCreateResponse
  | failure (msg : String) : BQCreateResponse

/-- create_bigquery_table's exception handling (main.py lines 154-161) over
an abstracted create response: success and Conflict both return normally,
any other failure is logged and re-raised. -/
def create_bigquery_table_onResponse (table_name : String) (resp : BQCreateResponse) :
    Except String Unit :=
  match get_table_schema table_name with
  | none => .error ("No schema defined for table: " ++ table_name)
  | some _ =>
    match resp with
    | .success => .ok ()
    | .conflict => .ok ()
    | .failure msg => .error msg

/-- The category-to-table dict literal of process_event (main.py lines
91-95). -/
def table_mapping_manager (event_type : String) : Option String :=
  if event_type == "order" then some "orders"
  else if event_type == "inventory" then some "inventory"
  else if event_type == "user_activity" then some "user_activity"
  else none

/-- process_event (main.py lines 77-116): extract event_type (falsy means a
plain return), map it to a table name (no mapping means a plain return),
require PROJECT_ID, resolve the dataset and table identifier, and create
the table only when the existence check fails. -/
def process_event (wh : Warehouse) (project_id : Option String) (environment : String)
    (event_data : Dict) : Except String Warehouse :=
  let event_type := (dictGet event_data "event_type").getD .null
  if event_type.truthy then
    match event_type with
    | .arr _ => .error "TypeError: unhashable type"
    | .obj _ => .error "TypeError: unhashable type"
    | .str s =>
      match table_mapping_manager s with
      | none => .ok wh
      | some table_name =>
        match project_id with
        | none => .error "PROJECT_ID environment variable is required"
        | some pid =>
          let dataset_id := environment ++ "_events_dataset"
          let table_id := pid ++ "." ++ dataset_id ++ "." ++ table_name
          if table_exists wh table_id then .ok wh
          else create_bigquery_table wh pid dataset_id table_name environment
    | _ => .ok wh
  else .ok wh

/-! ## Dict lemmas -/

theorem dictGet_dictSet_self (d : Dict) (k : String) (v : Json) :
    dictGet (dictSet d k v) k = some v := by
  induction d with
  | nil => simp [dictSet, dictGet]
  | cons kv rest ih =>
    by_cases h : kv.1 = k
    · simp [dictSet, dictGet, h]
    · simp [dictSet, dictGet, h, ih]

theorem dictGet_dictSet_ne (d : Dict) (k k2 : String) (v : Json) (h : k2 ≠ k) :
    dictGet (dictSet d k v) k2 = dictGet d k2 := by
  have hkk : ¬ (k = k2) := fun e => h e.symm
  induction d with
  | nil => simp [dictSet, dictGet, hkk]
  | cons kv rest ih =>
    by_cases hk : kv.1 = k
    · subst hk
      simp [dictSet, dictGet, hkk]
    · simp [dictSet, dictGet, hk, ih]

theorem dictSet_eq_append (d : Dict) (k : String) (v : Json)
    (h : k ∉ d.map Prod.fst) :
    dictSet d k v = d ++ [(k, v)] := by
  induction d with
  | nil => rfl
  | cons kv rest ih =>
    simp only [List.map_cons, List.mem_cons] at h
    push_neg at h
    have h1 : ¬ (kv.1 = k) := fun e => h.1 e.symm
    simp [dictSet, h1, ih h.2]

theorem dictErase_dictSet (d : Dict) (k : String) (v : Json) :
    dictErase (dictSet d k v) k = dictErase d k := by
  induction d with
  | nil => simp [dictSet, dictErase]
  | cons kv rest ih =>
    by_cases h : kv.1 = k
    · simp [dictSet, dictErase, h]
    · simp [dictSet, dictErase, h, ih]

theorem dictErase_of_not_mem (d : Dict) (k : String)
    (h : k ∉ d.map Prod.fst) :
    dictErase d k = d := by
  induction d with
  | nil => rfl
  | cons kv rest ih =>
    simp only [List.map_cons, List.mem_cons] at h
    push_neg at h
    have h1 : ¬ (kv.1 = k) := fun e => h.1 e.symm
    simp [dictErase, h1, ih h.2]

/-! ## Claim C8 -/

/-- C8: the Router's category-to-table mapping (order to orders, inventory
to inventory, user_activity to user_activity) coincides pointwise with the
Table Provisioner's mapping, and its image is exactly the set of table
names the Schema Catalog holds schemas for: a category is routed to a
warehouse table name precisely when the Catalog has a schema under that
name. -/
theorem router_catalog_category_alignment :
    (∀ c, table_mapping_pipeline c = table_mapping_manager c)
    ∧ (∀ t, (∃ c, table_mapping_pipeline c = some t) ↔ (get_table_schema t).isSome = true) := by
  constructor
  · intro c
    rfl
  · intro t
    constructor
    · rintro ⟨c, hc⟩
      unfold table_mapping_pipeline at hc
      split_ifs at hc with h1 h2 h3
      · obtain rfl : "orders" = t := Option.some.inj hc
        rfl
      · obtain rfl : "inventory" = t := Option.some.inj hc
        rfl
      · obtain rfl : "user_activity" = t := Option.some.inj hc
        rfl
    · intro h
      unfold get_table_schema at h
      split_ifs at h with h1 h2 h3
      · have ht : t = "orders" := by simpa using h1
        exact ⟨"order", by simp [table_mapping_pipeline, ht]⟩
      · have ht : t = "inventory" := by simpa using h2
        exact ⟨"inventory", by simp [table_mapping_pipeline, ht]⟩
      · have ht : t = "user_activity" := by simpa using h3
        exact ⟨"user_activity", by simp [table_mapping_pipeline, ht]⟩
      · simp at h

/-- Helper: when the table does not yet exist, create_bigquery_table adds
exactly the descriptor-built table under the fully-qualified identifier. -/
theorem create_bigquery_table_not_exists (wh : Warehouse) (proj ds tn env : String)
    (schema : List SchemaField) (hsch : get_table_schema tn = some schema)
    (hex : table_exists wh (proj ++ "." ++ ds ++ "." ++ tn) = false) :
    create_bigquery_table wh proj ds tn env =
      .ok ((proj ++ "." ++ ds ++ "." ++ tn,
            create_table_descriptor proj ds tn env schema) :: wh) := by
  unfold create_bigquery_table
  rw [hsch]
  unfold warehouse_create
  unfold table_exists at hex
  simp [create_table_descriptor, hex]

/-! ## Claim C7 -/

/-- C7: every table the Provisioner creates is built from the Catalog schema
of its category (which contains nullable processed_timestamp and event_date
fields), is day-partitioned on event_date, clustered on customer_id and
status for orders, product_id and warehouse_id for inventory, user_id and
activity_type for user_activity, and carries the environment, managed_by
and table_type labels; when the table does not yet exist the created entry
is exactly this descriptor. -/
theorem provisioner_table_descriptor_props
    (tn env proj ds : String) (schema : List SchemaField)
    (hsch : get_table_schema tn = some schema) :
    (create_table_descriptor proj ds tn env schema).schema = schema
    ∧ SchemaField.mk "processed_timestamp" "TIMESTAMP" "NULLABLE" [] ∈ schema
    ∧ SchemaField.mk "event_date" "DATE" "NULLABLE" [] ∈ schema
    ∧ (create_table_descriptor proj ds tn env schema).time_partitioning =
        some ⟨"DAY", "event_date"⟩
    ∧ (tn = "orders" →
        (create_table_descriptor proj ds tn env schema).clustering_fields =
          some ["customer_id", "status"])
    ∧ (tn = "inventory" →
        (create_table_descriptor proj ds tn env schema).clustering_fields =
          some ["product_id", "warehouse_id"])
    ∧ (tn = "user_activity" →
        (create_table_descriptor proj ds tn env schema).clustering_fields =
          some ["user_id", "activity_type"])
    ∧ (create_table_descriptor proj ds tn env schema).labels =
        [("environment", env), ("managed_by", "cloud_function"), ("table_type", tn)]
    ∧ (∀ wh : Warehouse, table_exists wh (proj ++ "." ++ ds ++ "." ++ tn) = false →
        create_bigquery_table wh proj ds tn env =
          .ok ((proj ++ "." ++ ds ++ "." ++ tn,
                create_table_descriptor proj ds tn env schema) :: wh)) := by
  unfold get_table_schema at hsch
  split_ifs at hsch with h1 h2 h3
  · have ht : tn = "orders" := by simpa using h1
    subst ht
    obtain rfl : get_orders_schema = schema := Option.some.inj hsch
    refine ⟨rfl, by decide, by decide, rfl, fun _ => rfl,
      fun h => absurd h (by decide), fun h => absurd h (by decide), rfl, ?_⟩
    intro wh hex
    exact create_bigquery_table_not_exists wh proj ds _ env _ rfl hex
  · have ht : tn = "inventory" := by simpa using h2
    subst ht
    obtain rfl : get_inventory_schema = schema := Option.some.inj hsch
    refine ⟨rfl, by decide, by decide, rfl, fun h => absurd h (by decide),
      fun _ => rfl, fun h => absurd h (by decide), rfl, ?_⟩
    intro wh hex
    exact create_bigquery_table_not_exists wh proj ds _ env _ rfl hex
  · have ht : tn = "user_activity" := by simpa using h3
    subst ht
    obtain rfl : get_user_activity_schema = schema := Option.some.inj hsch
    refine ⟨rfl, by decide, by decide, rfl, fun h => absurd h (by decide),
      fun h => absurd h (by decide), fun _ => rfl, rfl, ?_⟩
    intro wh hex
    exact create_bigquery_table_not_exists wh proj ds _ env _ rfl hex

/-- Witness for C7 at the orders table in a dev environment. -/
theorem provisioner_table_descriptor_props_witness :
    (create_table_descriptor "p" "dev_events_dataset" "orders" "dev" get_orders_schema).schema =
      get_orders_schema
    ∧ SchemaField.mk "processed_timestamp" "TIMESTAMP" "NULLABLE" [] ∈ get_orders_schema
    ∧ SchemaField.mk "event_date" "DATE" "NULLABLE" [] ∈ get_orders_schema
    ∧ (create_table_descriptor "p" "dev_events_dataset" "orders" "dev" get_orders_schema).time_partitioning =
        some ⟨"DAY", "event_date"⟩
    ∧ ("orders" = "orders" →
        (create_table_descriptor "p" "dev_events_dataset" "orders" "dev" get_orders_schema).clustering_fields =
          some ["customer_id", "status"])
    ∧ ("orders" = "inventory" →
        (create_table_descriptor "p" "dev_events_dataset" "orders" "dev" get_orders_schema).clustering_fields =
          some ["product_id", "warehouse_id"])
    ∧ ("orders" = "user_activity" →
        (create_table_descriptor "p" "dev_events_dataset" "orders" "dev" get_orders_schema).clustering_fields =
          some ["user_id", "activity_type"])
    ∧ (create_table_descriptor "p" "dev_events_dataset" "orders" "dev" get_orders_schema).labels =
        [("environment", "dev"), ("managed_by", "cloud_function"), ("table_type", "orders")]
    ∧ (∀ wh : Warehouse, table_exists wh ("p" ++ "." ++ "dev_events_dataset" ++ "." ++ "orders") = false →
        create_bigquery_table wh "p" "dev_events_dataset" "orders" "dev" =
          .ok (("p" ++ "." ++ "dev_events_dataset" ++ "." ++ "orders",
                create_table_descriptor "p" "dev_events_dataset" "orders" "dev" get_orders_schema) :: wh)) :=
  provisioner_table_descriptor_props "orders" "dev" "p" "dev_events_dataset" get_orders_schema rfl

/-! ## Claim C3 -/

/-- Helper: a create racing against an already-present table is swallowed as
success and leaves the warehouse unchanged. -/
theorem create_bigquery_table_conflict (wh : Warehouse) (proj ds tn env : String)
    (schema : List SchemaField) (hsch : get_table_schema tn = some schema)
    (hex : table_exists wh (proj ++ "." ++ ds ++ "." ++ tn) = true) :
    create_bigquery_table wh proj ds tn env = .ok wh := by
  unfold create_bigquery_table
  rw [hsch]
  unfold warehouse_create
  unfold table_exists at hex
  simp [create_table_descriptor, hex]

/-- Helper: every table name in the provisioner's mapping image has a
catalog schema. -/
theorem mapping_schema_exists (c t : String) (hmap : table_mapping_manager c = some t) :
    ∃ schema, get_table_schema t = some schema := by
  unfold table_mapping_manager at hmap
  split_ifs at hmap with h1 h2 h3
  · obtain rfl : "orders" = t := Option.some.inj hmap
    exact ⟨get_orders_schema, rfl⟩
  · obtain rfl : "inventory" = t := Option.some.inj hmap
    exact ⟨get_inventory_schema, rfl⟩
  · obtain rfl : "user_activity" = t := Option.some.inj hmap
    exact ⟨get_user_activity_schema, rfl⟩

/-- Helper: process_event on a mapped category reduces to the
check-then-create step on the fully-qualified table identifier. -/
theorem process_event_reduce (wh : Warehouse) (pid env c t : String) (payload : Dict)
    (hmap : table_mapping_manager c = some t)
    (hety : dictGet payload "event_type" = some (.str c))
    (hc : c ≠ "") :
    process_event wh (some pid) env payload =
      (if table_exists wh (pid ++ "." ++ (env ++ "_events_dataset") ++ "." ++ t) then .ok wh
       else create_bigquery_table wh pid (env ++ "_events_dataset") t env) := by
  unfold process_event
  rw [hety]
  simp [Json.truthy, hc, hmap]

/-- C3: ensure_table (process_event) is idempotent and race-safe for every
category with a known table mapping: an existing table detected by the
check makes the call succeed unchanged; an existing table surfacing as a
warehouse Conflict at create time is also swallowed as success with nothing
created; any other create failure propagates to the caller; and starting
from a warehouse without the table, repeated calls succeed and leave
exactly one table under the identifier. -/
theorem ensure_table_idempotent_race_safe
    (wh : Warehouse) (pid env c t : String) (payload : Dict)
    (hmap : table_mapping_manager c = some t)
    (hety : dictGet payload "event_type" = some (.str c))
    (hc : c ≠ "") :
    (table_exists wh (pid ++ "." ++ (env ++ "_events_dataset") ++ "." ++ t) = true →
      process_event wh (some pid) env payload = .ok wh)
    ∧ (table_exists wh (pid ++ "." ++ (env ++ "_events_dataset") ++ "." ++ t) = true →
      create_bigquery_table wh pid (env ++ "_events_dataset") t env = .ok wh)
    ∧ (∀ msg, create_bigquery_table_onResponse t (.failure msg) = .error msg)
    ∧ (table_exists wh (pid ++ "." ++ (env ++ "_events_dataset") ++ "." ++ t) = false →
      ∃ wh2, process_event wh (some pid) env payload = .ok wh2 ∧
        wh2.countP (fun e => e.1 == pid ++ "." ++ (env ++ "_events_dataset") ++ "." ++ t) = 1 ∧
        process_event wh2 (some pid) env payload = .ok wh2) := by
  obtain ⟨schema, hsch⟩ := mapping_schema_exists c t hmap
  refine ⟨?_, ?_, ?_, ?_⟩
  · intro hex
    rw [process_event_reduce wh pid env c t payload hmap hety hc, hex]
    rfl
  · intro hex
    exact create_bigquery_table_conflict wh pid (env ++ "_events_dataset") t env schema hsch hex
  · intro msg
    unfold create_bigquery_table_onResponse
    rw [hsch]
  · intro hex
    refine ⟨(pid ++ "." ++ (env ++ "_events_dataset") ++ "." ++ t,
             create_table_descriptor pid (env ++ "_events_dataset") t env schema) :: wh,
            ?_, ?_, ?_⟩
    · rw [process_event_reduce wh pid env c t payload hmap hety hc, hex]
      simp only [Bool.false_eq_true, if_false]
      exact create_bigquery_table_not_exists wh pid (env ++ "_events_dataset") t env schema hsch hex
    · have h0 : wh.countP
          (fun e => e.1 == pid ++ "." ++ (env ++ "_events_dataset") ++ "." ++ t) = 0 := by
        unfold table_exists at hex
        rw [List.countP_eq_zero]
        intro a ha
        exact (List.any_eq_false.mp hex) a ha
      have hp : (fun (e : String × BQTable) =>
          e.1 == pid ++ "." ++ (env ++ "_events_dataset") ++ "." ++ t)
          (pid ++ "." ++ (env ++ "_events_dataset") ++ "." ++ t,
           create_table_descriptor pid (env ++ "_events_dataset") t env schema) = true := by
        simp
      simp [List.countP_cons, hp, h0]
    · rw [process_event_reduce _ pid env c t payload hmap hety hc]
      have hex2 : table_exists
          ((pid ++ "." ++ (env ++ "_events_dataset") ++ "." ++ t,
            create_table_descriptor pid (env ++ "_events_dataset") t env schema) :: wh)
          (pid ++ "." ++ (env ++ "_events_dataset") ++ "." ++ t) = true := by
        simp [table_exists]
      rw [hex2]
      rfl

/-- Witness for C3 at the orders table, a dev environment and an empty
warehouse. -/
theorem ensure_table_idempotent_race_safe_witness :
    (table_exists [] ("p" ++ "." ++ ("dev" ++ "_events_dataset") ++ "." ++ "orders") = true →
      process_event [] (some "p") "dev" [("event_type", Json.str "order")] = .ok [])
    ∧ (table_exists [] ("p" ++ "." ++ ("dev" ++ "_events_dataset") ++ "." ++ "orders") = true →
      create_bigquery_table [] "p" ("dev" ++ "_events_dataset") "orders" "dev" = .ok [])
    ∧ (∀ msg, create_bigquery_table_onResponse "orders" (.failure msg) = .error msg)
    ∧ (table_exists [] ("p" ++ "." ++ ("dev" ++ "_events_dataset") ++ "." ++ "orders") = false →
      ∃ wh2, process_event [] (some "p") "dev" [("event_type", Json.str "order")] = .ok wh2 ∧
        wh2.countP (fun e => e.1 == "p" ++ "." ++ ("dev" ++ "_events_dataset") ++ "." ++ "orders") = 1 ∧
        process_event wh2 (some "p") "dev" [("event_type", Json.str "order")] = .ok wh2) :=
  ensure_table_idempotent_race_safe [] "p" "dev" "order" "orders"
    [("event_type", Json.str "order")] rfl rfl (by decide)

/-! ## Evaluation lemmas for the enrichment step -/

theorem event_date_of_order_present (d : Dict) (now : PyDateTime) (s : String) (dt : PyDateTime)
    (hf : dictGet d "order_date" = some (.str s)) (hs : s ≠ "")
    (hp : fromisoformat (replaceCharStr s 'Z' "+00:00") = some dt) :
    event_date_of (.str "order") d now = .ok dt.date := by
  simp [event_date_of, Json.isStr, hf, Json.truthy, hs, hp]

theorem event_date_of_order_absent (d : Dict) (now : PyDateTime)
    (hf : dictGet d "order_date" = none) :
    event_date_of (.str "order") d now = .ok now.date := by
  simp [event_date_of, Json.isStr, hf, Json.truthy]

theorem event_date_of_order_malformed (d : Dict) (now : PyDateTime) (s : String)
    (hf : dictGet d "order_date" = some (.str s)) (hs : s ≠ "")
    (hp : fromisoformat (replaceCharStr s 'Z' "+00:00") = none) :
    event_date_of (.str "order") d now = .error "ValueError" := by
  simp [event_date_of, Json.isStr, hf, Json.truthy, hs, hp]

theorem event_date_of_ts_present (c : String) (d : Dict) (now : PyDateTime) (s : String)
    (dt : PyDateTime) (hc : c = "inventory" ∨ c = "user_activity")
    (hf : dictGet d "timestamp" = some (.str s)) (hs : s ≠ "")
    (hp : fromisoformat (replaceCharStr s 'Z' "+00:00") = some dt) :
    event_date_of (.str c) d now = .ok dt.date := by
  rcases hc with rfl | rfl <;>
    simp [event_date_of, Json.isStr, hf, Json.truthy, hs, hp]

theorem event_date_of_ts_absent (c : String) (d : Dict) (now : PyDateTime)
    (hc : c = "inventory" ∨ c = "user_activity")
    (hf : dictGet d "timestamp" = none) :
    event_date_of (.str c) d now = .ok now.date := by
  rcases hc with rfl | rfl <;>
    simp [event_date_of, Json.isStr, hf, Json.truthy]

theorem event_date_of_ts_malformed (c : String) (d : Dict) (now : PyDateTime) (s : String)
    (hc : c = "inventory" ∨ c = "user_activity")
    (hf : dictGet d "timestamp" = some (.str s)) (hs : s ≠ "")
    (hp : fromisoformat (replaceCharStr s 'Z' "+00:00") = none) :
    event_date_of (.str c) d now = .error "ValueError" := by
  rcases hc with rfl | rfl <;>
    simp [event_date_of, Json.isStr, hf, Json.truthy, hs, hp]

theorem event_date_of_unknown (c : String) (d : Dict) (now : PyDateTime)
    (h1 : c ≠ "order") (h2 : c ≠ "inventory") (h3 : c ≠ "user_activity") :
    event_date_of (.str c) d now = .ok now.date := by
  simp [event_date_of, Json.isStr, h1, h2, h3]

theorem processParsed_eval (payload : Dict) (now : PyDateTime) (c : String) (ed : PyDate)
    (hety : dictGet payload "event_type" = some (.str c)) (hc : c ≠ "")
    (hed : event_date_of (.str c)
      (dictSet payload "processed_timestamp" (.str (now.isoformat ++ "Z"))) now = .ok ed) :
    EventProcessor_processParsed (.obj payload) now =
      .ok [(.str c,
        dictSet (dictSet payload "processed_timestamp" (.str (now.isoformat ++ "Z")))
          "event_date" (.str ed.isoformat))] := by
  simp only [EventProcessor_processParsed, hety, Option.getD_some, Json.truthy]
  simp [hc, hed]

theorem processParsed_eval_error (payload : Dict) (now : PyDateTime) (c msg : String)
    (hety : dictGet payload "event_type" = some (.str c)) (hc : c ≠ "")
    (hed : event_date_of (.str c)
      (dictSet payload "processed_timestamp" (.str (now.isoformat ++ "Z"))) now = .error msg) :
    EventProcessor_processParsed (.obj payload) now = .error msg := by
  simp only [EventProcessor_processParsed, hety, Option.getD_some, Json.truthy]
  simp [hc, hed]

/-! ## Claim C2 -/

/-- C2: for every parsed payload with a recognized category, enrichment sets
event_date to the date portion of the category's designated timestamp field
(order_date for order, timestamp for inventory and user_activity) when that
field is present with a parseable value, and to the date of the processing
time when it is absent. -/
theorem enrich_partition_date_designated_field
    (payload : Dict) (now : PyDateTime) (c : String)
    (hc : c = "order" ∨ c = "inventory" ∨ c = "user_activity")
    (hety : dictGet payload "event_type" = some (.str c)) :
    (∀ s dt, dictGet payload (if c = "order" then "order_date" else "timestamp") = some (.str s) →
      s ≠ "" →
      fromisoformat (replaceCharStr s 'Z' "+00:00") = some dt →
      ∃ enr, EventProcessor_processParsed (.obj payload) now = .ok [(.str c, enr)] ∧
        dictGet enr "event_date" = some (.str dt.date.isoformat))
    ∧ (dictGet payload (if c = "order" then "order_date" else "timestamp") = none →
      ∃ enr, EventProcessor_processParsed (.obj payload) now = .ok [(.str c, enr)] ∧
        dictGet enr "event_date" = some (.str now.date.isoformat)) := by
  have hcne : c ≠ "" := by rcases hc with rfl | rfl | rfl <;> decide
  constructor
  · intro s dt hf hs hp
    rcases hc with rfl | rfl | rfl
    · exact ⟨_, processParsed_eval payload now "order" dt.date hety hcne
        (event_date_of_order_present _ now s dt
          (by rw [dictGet_dictSet_ne _ _ _ _ (by decide)]; simpa using hf) hs hp),
        dictGet_dictSet_self _ _ _⟩
    · exact ⟨_, processParsed_eval payload now "inventory" dt.date hety hcne
        (event_date_of_ts_present _ _ now s dt (Or.inl rfl)
          (by rw [dictGet_dictSet_ne _ _ _ _ (by decide)]; simpa using hf) hs hp),
        dictGet_dictSet_self _ _ _⟩
    · exact ⟨_, processParsed_eval payload now "user_activity" dt.date hety hcne
        (event_date_of_ts_present _ _ now s dt (Or.inr rfl)
          (by rw [dictGet_dictSet_ne _ _ _ _ (by decide)]; simpa using hf) hs hp),
        dictGet_dictSet_self _ _ _⟩
  · intro hf
    rcases hc with rfl | rfl | rfl
    · exact ⟨_, processParsed_eval payload now "order" now.date hety hcne
        (event_date_of_order_absent _ now
          (by rw [dictGet_dictSet_ne _ _ _ _ (by decide)]; simpa using hf)),
        dictGet_dictSet_self _ _ _⟩
    · exact ⟨_, processParsed_eval payload now "inventory" now.date hety hcne
        (event_date_of_ts_absent _ _ now (Or.inl rfl)
          (by rw [dictGet_dictSet_ne _ _ _ _ (by decide)]; simpa using hf)),
        dictGet_dictSet_self _ _ _⟩
    · exact ⟨_, processParsed_eval payload now "user_activity" now.date hety hcne
        (event_date_of_ts_absent _ _ now (Or.inr rfl)
          (by rw [dictGet_dictSet_ne _ _ _ _ (by decide)]; simpa using hf)),
        dictGet_dictSet_self _ _ _⟩

/-- Witness for C2 at an order payload whose order_date is
2024-01-02T03:04:05Z. -/
theorem enrich_partition_date_designated_field_witness :
    ∃ enr, EventProcessor_processParsed
        (.obj [("event_type", Json.str "order"), ("order_date", Json.str "2024-01-02T03:04:05Z")])
        ⟨2024, 3, 5, 14, 7, 22, 451000⟩ = .ok [(.str "order", enr)] ∧
      dictGet enr "event_date" = some (.str (PyDate.isoformat ⟨2024, 1, 2⟩)) :=
  (enrich_partition_date_designated_field
      [("event_type", Json.str "order"), ("order_date", Json.str "2024-01-02T03:04:05Z")]
      ⟨2024, 3, 5, 14, 7, 22, 451000⟩ "order" (Or.inl rfl) rfl).1
    "2024-01-02T03:04:05Z" ⟨2024, 1, 2, 3, 4, 5, 0⟩ rfl (by decide) (by decide)

/-! ## Claim C10 -/

/-- A fixed enrichment-processing instant used by the concrete examples. -/
def now0 : PyDateTime := ⟨2024, 3, 5, 14, 7, 22, 451000⟩

/-- The inventory payload whose timestamp field is present but empty. -/
def c10_payload : Dict := [("event_type", Json.str "inventory"), ("timestamp", Json.str "")]

/-- The enriched event the code actually produces for c10_payload. -/
def c10_enriched : Dict :=
  [("event_type", Json.str "inventory"), ("timestamp", Json.str ""),
   ("processed_timestamp", Json.str "2024-03-05T14:07:22.451000Z"),
   ("event_date", Json.str "2024-03-05")]

/-- C10 counterexample: an inventory event whose timestamp field is present
(an empty string) and not parseable as ISO-8601 is NOT dropped — Python
truthiness routes it to the processing-time fallback, so enrichment yields
the event with event_date set to the processing date. -/
theorem empty_timestamp_not_dropped :
    dictGet c10_payload "timestamp" = some (.str "")
    ∧ fromisoformat (replaceCharStr "" 'Z' "+00:00") = none
    ∧ EventProcessor_runParsed (.obj c10_payload) now0 ≠ []
    ∧ EventProcessor_processParsed (.obj c10_payload) now0 =
        .ok [(.str "inventory", c10_enriched)] := by
  refine ⟨rfl, rfl, ?_, rfl⟩
  rw [show EventProcessor_runParsed (Json.obj c10_payload) now0 =
      [(Json.str "inventory", c10_enriched)] from rfl]
  exact List.cons_ne_nil _ _

theorem event_date_of_order_falsy (d : Dict) (now : PyDateTime)
    (hf : dictGet d "order_date" = some (.str "")) :
    event_date_of (.str "order") d now = .ok now.date := by
  simp [event_date_of, Json.isStr, hf, Json.truthy]

theorem event_date_of_ts_falsy (c : String) (d : Dict) (now : PyDateTime)
    (hc : c = "inventory" ∨ c = "user_activity")
    (hf : dictGet d "timestamp" = some (.str "")) :
    event_date_of (.str c) d now = .ok now.date := by
  rcases hc with rfl | rfl <;>
    simp [event_date_of, Json.isStr, hf, Json.truthy]

/-- C10 amended: for a recognized category, a designated timestamp field
that is present, non-empty and not parseable as ISO-8601 makes enrichment
raise and the whole event is silently dropped from both sinks; the
processing-time fallback applies when the field is absent or present but
empty (falsy), not for non-empty malformed values. -/
theorem malformed_timestamp_drops_event
    (payload : Dict) (now : PyDateTime) (c s : String)
    (hc : c = "order" ∨ c = "inventory" ∨ c = "user_activity")
    (hety : dictGet payload "event_type" = some (.str c)) :
    (dictGet payload (if c = "order" then "order_date" else "timestamp") = some (.str s) →
      s ≠ "" →
      fromisoformat (replaceCharStr s 'Z' "+00:00") = none →
      EventProcessor_processParsed (.obj payload) now = .error "ValueError"
      ∧ EventProcessor_runParsed (.obj payload) now = []
      ∧ gcs_events (EventProcessor_runParsed (.obj payload) now) now = []
      ∧ bigquery_events (EventProcessor_runParsed (.obj payload) now) = .ok [])
    ∧ (dictGet payload (if c = "order" then "order_date" else "timestamp") = some (.str "") →
      ∃ enr, EventProcessor_processParsed (.obj payload) now = .ok [(.str c, enr)] ∧
        dictGet enr "event_date" = some (.str now.date.isoformat)) := by
  have hcne : c ≠ "" := by rcases hc with rfl | rfl | rfl <;> decide
  constructor
  · intro hf hs hp
    have herr : EventProcessor_processParsed (.obj payload) now = .error "ValueError" := by
      rcases hc with rfl | rfl | rfl
      · exact processParsed_eval_error payload now "order" _ hety hcne
          (event_date_of_order_malformed _ now s
            (by rw [dictGet_dictSet_ne _ _ _ _ (by decide)]; simpa using hf) hs hp)
      · exact processParsed_eval_error payload now "inventory" _ hety hcne
          (event_date_of_ts_malformed _ _ now s (Or.inl rfl)
            (by rw [dictGet_dictSet_ne _ _ _ _ (by decide)]; simpa using hf) hs hp)
      · exact processParsed_eval_error payload now "user_activity" _ hety hcne
          (event_date_of_ts_malformed _ _ now s (Or.inr rfl)
            (by rw [dictGet_dictSet_ne _ _ _ _ (by decide)]; simpa using hf) hs hp)
    have hrun : EventProcessor_runParsed (.obj payload) now = [] := by
      unfold EventProcessor_runParsed
      rw [herr]
    exact ⟨herr, hrun, by rw [hrun]; rfl, by rw [hrun]; rfl⟩
  · intro hf
    rcases hc with rfl | rfl | rfl
    · exact ⟨_, processParsed_eval payload now "order" now.date hety hcne
        (event_date_of_order_falsy _ now
          (by rw [dictGet_dictSet_ne _ _ _ _ (by decide)]; simpa using hf)),
        dictGet_dictSet_self _ _ _⟩
    · exact ⟨_, processParsed_eval payload now "inventory" now.date hety hcne
        (event_date_of_ts_falsy _ _ now (Or.inl rfl)
          (by rw [dictGet_dictSet_ne _ _ _ _ (by decide)]; simpa using hf)),
        dictGet_dictSet_self _ _ _⟩
    · exact ⟨_, processParsed_eval payload now "user_activity" now.date hety hcne
        (event_date_of_ts_falsy _ _ now (Or.inr rfl)
          (by rw [dictGet_dictSet_ne _ _ _ _ (by decide)]; simpa using hf)),
        dictGet_dictSet_self _ _ _⟩

/-- Witness for C10 at an inventory payload with an unparseable non-empty
timestamp. -/
theorem malformed_timestamp_drops_event_witness :
    EventProcessor_processParsed
        (.obj [("event_type", Json.str "inventory"), ("timestamp", Json.str "not-a-date")])
        now0 = .error "ValueError"
    ∧ EventProcessor_runParsed
        (.obj [("event_type", Json.str "inventory"), ("timestamp", Json.str "not-a-date")])
        now0 = []
    ∧ gcs_events (EventProcessor_runParsed
        (.obj [("event_type", Json.str "inventory"), ("timestamp", Json.str "not-a-date")])
        now0) now0 = []
    ∧ bigquery_events (EventProcessor_runParsed
        (.obj [("event_type", Json.str "inventory"), ("timestamp", Json.str "not-a-date")])
        now0) = .ok [] :=
  (malformed_timestamp_drops_event
      [("event_type", Json.str "inventory"), ("timestamp", Json.str "not-a-date")]
      now0 "inventory" "not-a-date" (Or.inr (Or.inl rfl)) rfl).1 rfl (by decide) rfl

/-! ## Claim C5 -/

/-- Helper: for a recognized category with a present, non-empty, parseable
timestamp field, FormatForGCS yields exactly the folder-path/filename pair
built from the parsed datetime, with the serialized event as content. -/
theorem formatForGCS_yields (c : String) (d : Dict) (now : PyDateTime) (s : String)
    (dt : PyDateTime)
    (hc : c = "order" ∨ c = "inventory" ∨ c = "user_activity")
    (hf : dictGet d (if c = "order" then "order_date" else "timestamp") = some (.str s))
    (hs : s ≠ "")
    (hp : fromisoformat (replaceCharStr s 'Z' "+00:00") = some dt) :
    FormatForGCS_process (.str c, d) now =
      [(gcs_folder_path c dt ++ "/" ++ gcs_filename c dt, dumps (.obj d))] := by
  rcases hc with rfl | rfl | rfl
  · replace hf : dictGet d "order_date" = some (Json.str s) := by simpa using hf
    simp [FormatForGCS_process, FormatForGCS_body, Json.isStr, Json.truthy, pyStr, hf, hs, hp]
  · replace hf : dictGet d "timestamp" = some (Json.str s) := by simpa using hf
    simp [FormatForGCS_process, FormatForGCS_body, Json.isStr, Json.truthy, pyStr, hf, hs, hp]
  · replace hf : dictGet d "timestamp" = some (Json.str s) := by simpa using hf
    simp [FormatForGCS_process, FormatForGCS_body, Json.isStr, Json.truthy, pyStr, hf, hs, hp]

/-- The inventory event of the spec's concrete example. -/
def inv_payload : Dict :=
  [("event_type", Json.str "inventory"), ("inventory_id", Json.str "inv-1"),
   ("timestamp", Json.str "2024-03-05T14:07:22.451Z")]

/-- C5: for every recognized-category event with a parseable timestamp, the
computed object-store destination is the folder
output/<category>/<YYYY>/<MM>/<DD>/<HH>/<MM> (zero-padded, from the event's
own timestamp truncated to the minute) with filename
<category>_<YYYYMMDDHHMM><SS><mmm>.json; concretely, an inventory event
with timestamp 2024-03-05T14:07:22.451Z maps to
output/inventory/2024/03/05/14/07/inventory_20240305140722451.json. -/
theorem gcs_object_path_pattern (c : String) (d : Dict) (now : PyDateTime) (s : String)
    (dt : PyDateTime)
    (hc : c = "order" ∨ c = "inventory" ∨ c = "user_activity")
    (hf : dictGet d (if c = "order" then "order_date" else "timestamp") = some (.str s))
    (hs : s ≠ "")
    (hp : fromisoformat (replaceCharStr s 'Z' "+00:00") = some dt) :
    FormatForGCS_process (.str c, d) now =
      [("output/" ++ c ++ "/" ++ padNum 4 dt.year ++ "/" ++ padNum 2 dt.month ++ "/" ++
        padNum 2 dt.day ++ "/" ++ padNum 2 dt.hour ++ "/" ++ padNum 2 dt.minute ++ "/" ++
        (c ++ "_" ++ dt.strftimeYmdHM ++ padNum 2 dt.second ++
         padNum 3 (dt.microsecond / 1000) ++ ".json"), dumps (.obj d))]
    ∧ FormatForGCS_process (.str "inventory", inv_payload) now0 =
      [("output/inventory/2024/03/05/14/07/inventory_20240305140722451.json",
        dumps (.obj inv_payload))] :=
  ⟨formatForGCS_yields c d now s dt hc hf hs hp, rfl⟩

/-- Witness for C5 at an order event with order_date 2023-12-31T23:59:59Z. -/
theorem gcs_object_path_pattern_witness :
    FormatForGCS_process (.str "order",
        [("event_type", Json.str "order"), ("order_date", Json.str "2023-12-31T23:59:59Z")])
      now0 =
      [("output/order/2023/12/31/23/59/order_20231231235959000.json",
        dumps (.obj [("event_type", Json.str "order"),
                     ("order_date", Json.str "2023-12-31T23:59:59Z")]))] :=
  (gcs_object_path_pattern "order"
      [("event_type", Json.str "order"), ("order_date", Json.str "2023-12-31T23:59:59Z")]
      now0 "2023-12-31T23:59:59Z" ⟨2023, 12, 31, 23, 59, 59, 0⟩
      (Or.inl rfl) rfl (by decide) rfl).1

/-! ## Claim C1 -/

/-- Modelled from the claim's words (for refutation): every record the
Object-Store formatter produces for the event is written at its per-event
path, i.e. some WriteToText destination (configured prefix, runtime shard
infix, .json suffix) coincides with the computed per-event path. -/
def gcs_output_written_at_event_path (gcsRoot : String) (e : Json × Dict)
    (now : PyDateTime) : Prop :=
  ∀ pc ∈ FormatForGCS_process e now, ∃ shard, writeToText_path gcsRoot shard = pc.1

/-- C1 counterexample: for the concrete inventory event, the computed
per-event path is output/inventory/2024/03/05/14/07/inventory_... but no
WriteToText destination under the configured prefix gs://bucket equals it:
run_pipeline discards the computed path (keeping only the JSON content)
and writes windowed shards under the prefix. -/
theorem gcs_written_location_not_per_event_path :
    ¬ gcs_output_written_at_event_path "gs://bucket" (.str "inventory", inv_payload) now0 := by
  intro h
  obtain ⟨shard, hsh⟩ := h
    ("output/inventory/2024/03/05/14/07/inventory_20240305140722451.json",
     dumps (.obj inv_payload))
    (by rw [show FormatForGCS_process (Json.str "inventory", inv_payload) now0 =
          [("output/inventory/2024/03/05/14/07/inventory_20240305140722451.json",
            dumps (Json.obj inv_payload))] from rfl]
        exact List.mem_singleton_self _)
  have h1 : (writeToText_path "gs://bucket" shard).data.head? = some 'g' := by
    obtain ⟨l⟩ := shard
    rfl
  rw [hsh] at h1
  have h2 : (("output/inventory/2024/03/05/14/07/inventory_20240305140722451.json",
      dumps (Json.obj inv_payload)).1).data.head? = some 'o' := rfl
  rw [h1] at h2
  exact absurd (Option.some.inj h2) (by decide)

/-- C1 amended: FormatForGCS computes a per-event (path, content) pair whose
path follows the documented pattern, but the GCS branch of run_pipeline
discards the path — the elements handed to the windowed WriteToText sink
are exactly the JSON contents — and the write destination is derived from
the configured output prefix, independent of any event. -/
theorem gcs_per_event_path_computed_then_discarded
    (gcsRoot : String) (processed : List (Json × Dict)) (now : PyDateTime)
    (c : String) (d : Dict) (s : String) (dt : PyDateTime)
    (hc : c = "order" ∨ c = "inventory" ∨ c = "user_activity")
    (hf : dictGet d (if c = "order" then "order_date" else "timestamp") = some (.str s))
    (hs : s ≠ "")
    (hp : fromisoformat (replaceCharStr s 'Z' "+00:00") = some dt) :
    gcs_events processed now =
      (processed.flatMap (fun e => FormatForGCS_process e now)).map Prod.snd
    ∧ FormatForGCS_process (.str c, d) now =
      [(gcs_folder_path c dt ++ "/" ++ gcs_filename c dt, dumps (.obj d))]
    ∧ (∀ shard, writeToText_path gcsRoot shard = gcsRoot ++ "/output" ++ shard ++ ".json") :=
  ⟨rfl, formatForGCS_yields c d now s dt hc hf hs hp, fun _ => rfl⟩

/-- Witness for C1's amended statement at the concrete inventory event. -/
theorem gcs_per_event_path_computed_then_discarded_witness :
    gcs_events [(Json.str "inventory", inv_payload)] now0 =
      (([(Json.str "inventory", inv_payload)]).flatMap
        (fun e => FormatForGCS_process e now0)).map Prod.snd
    ∧ FormatForGCS_process (.str "inventory", inv_payload) now0 =
      [(gcs_folder_path "inventory" ⟨2024, 3, 5, 14, 7, 22, 451000⟩ ++ "/" ++
        gcs_filename "inventory" ⟨2024, 3, 5, 14, 7, 22, 451000⟩, dumps (.obj inv_payload))]
    ∧ (∀ shard, writeToText_path "gs://bucket" shard =
        "gs://bucket" ++ "/output" ++ shard ++ ".json") :=
  gcs_per_event_path_computed_then_discarded "gs://bucket"
    [(Json.str "inventory", inv_payload)] now0 "inventory" inv_payload
    "2024-03-05T14:07:22.451Z" ⟨2024, 3, 5, 14, 7, 22, 451000⟩
    (Or.inr (Or.inl rfl)) rfl (by decide) rfl

/-! ## Claim C4 -/

/-- A message with an unrecognized category. -/
def c4_payload : Dict := [("event_type", Json.str "foo")]

/-- The enriched event the code actually produces for c4_payload at now0. -/
def c4_enriched : Dict :=
  [("event_type", Json.str "foo"),
   ("processed_timestamp", Json.str "2024-03-05T14:07:22.451000Z"),
   ("event_date", Json.str "2024-03-05")]

/-- C4 counterexample: a message with the unrecognized category foo is not
inert — enrichment yields the enriched event (with the processing-date
fallback) and the object-store formatter still produces a record for it. -/
theorem unrecognized_category_not_inert :
    EventProcessor_runParsed (.obj c4_payload) now0 ≠ []
    ∧ EventProcessor_processParsed (.obj c4_payload) now0 = .ok [(.str "foo", c4_enriched)]
    ∧ FormatForGCS_process (.str "foo", c4_enriched) now0 =
        [("output/foo/2024/03/05/14/07/foo_20240305140722451.json",
          dumps (.obj c4_enriched))] := by
  refine ⟨?_, rfl, rfl⟩
  rw [show EventProcessor_runParsed (Json.obj c4_payload) now0 =
      [(Json.str "foo", c4_enriched)] from rfl]
  exact List.cons_ne_nil _ _

/-- C4 amended: a payload with no event_type key is inert — enrichment
yields nothing, so neither the warehouse branch nor the object-store branch
receives anything — while a payload with a truthy unrecognized category is
enriched with the processing-date partition and is excluded from the
warehouse sink only (the mapping yields no row); it still proceeds to the
object-store branch. -/
theorem missing_category_inert_unrecognized_warehouse_only
    (payload : Dict) (now : PyDateTime) (c : String)
    (hna : c ≠ "order") (hnb : c ≠ "inventory") (hnc : c ≠ "user_activity") (hne : c ≠ "") :
    (dictGet payload "event_type" = none →
      EventProcessor_processParsed (.obj payload) now = .ok []
      ∧ gcs_events (EventProcessor_runParsed (.obj payload) now) now = []
      ∧ bigquery_events (EventProcessor_runParsed (.obj payload) now) = .ok [])
    ∧ (dictGet payload "event_type" = some (.str c) →
      ∃ enr, EventProcessor_processParsed (.obj payload) now = .ok [(.str c, enr)]
        ∧ FormatForBigQuery_process (.str c, enr) = .ok []
        ∧ dictGet enr "event_date" = some (.str now.date.isoformat)) := by
  constructor
  · intro hety
    have h1 : EventProcessor_processParsed (.obj payload) now = .ok [] := by
      simp [EventProcessor_processParsed, hety, Json.truthy]
    have h2 : EventProcessor_runParsed (.obj payload) now = [] := by
      unfold EventProcessor_runParsed
      rw [h1]
    exact ⟨h1, by rw [h2]; rfl, by rw [h2]; rfl⟩
  · intro hety
    have hm : table_mapping_pipeline c = none := by
      simp [table_mapping_pipeline, hna, hnb, hnc]
    exact ⟨_, processParsed_eval payload now c now.date hety hne
        (event_date_of_unknown c _ now hna hnb hnc),
      by simp [FormatForBigQuery_process, hm],
      dictGet_dictSet_self _ _ _⟩

/-- Witness for C4's amended statement: an event_type-less payload is inert,
and a payload with category bar is enriched yet yields no warehouse row. -/
theorem missing_category_inert_unrecognized_warehouse_only_witness :
    (EventProcessor_processParsed (.obj [("other", Json.str "x")]) now0 = .ok []
      ∧ gcs_events (EventProcessor_runParsed (.obj [("other", Json.str "x")]) now0) now0 = []
      ∧ bigquery_events (EventProcessor_runParsed (.obj [("other", Json.str "x")]) now0) = .ok [])
    ∧ (∃ enr, EventProcessor_processParsed (.obj [("event_type", Json.str "bar")]) now0 =
          .ok [(.str "bar", enr)]
        ∧ FormatForBigQuery_process (.str "bar", enr) = .ok []
        ∧ dictGet enr "event_date" = some (.str now0.date.isoformat)) :=
  ⟨(missing_category_inert_unrecognized_warehouse_only [("other", Json.str "x")] now0 "bar"
      (by decide) (by decide) (by decide) (by decide)).1 rfl,
   (missing_category_inert_unrecognized_warehouse_only [("event_type", Json.str "bar")] now0 "bar"
      (by decide) (by decide) (by decide) (by decide)).2 rfl⟩

/-! ## Claim C6 -/

/-- Inversion: a successful enrichment of a parsed object always produces
the input dict with processed_timestamp stamped and event_date set to some
date. -/
theorem processParsed_ok_shape (payload : Dict) (now : PyDateTime) (et : Json) (enr : Dict)
    (h : EventProcessor_processParsed (.obj payload) now = .ok [(et, enr)]) :
    ∃ ed : PyDate,
      enr = dictSet (dictSet payload "processed_timestamp" (.str (now.isoformat ++ "Z")))
        "event_date" (.str ed.isoformat) := by
  simp only [EventProcessor_processParsed] at h
  split at h
  · split at h
    · rename_i ed he
      obtain ⟨hpair, -⟩ := List.cons.inj (Except.ok.inj h)
      exact ⟨ed, (congrArg Prod.snd hpair).symm⟩
    · exact absurd h (by simp)
  · exact absurd h (by simp)

/-- C6: for every enriched event with a recognized category, the row handed
to the warehouse writer equals the enriched event with exactly the
_table_name routing key removed; when the original payload does not use the
reserved keys, the row is exactly the payload plus processed_timestamp and
event_date, with no other key added or removed. -/
theorem warehouse_row_exact_frame
    (payload enr : Dict) (now : PyDateTime) (c t : String)
    (hmap : table_mapping_pipeline c = some t)
    (h1 : "processed_timestamp" ∉ payload.map Prod.fst)
    (h2 : "event_date" ∉ payload.map Prod.fst)
    (h3 : "_table_name" ∉ payload.map Prod.fst)
    (henr : EventProcessor_processParsed (.obj payload) now = .ok [(.str c, enr)]) :
    ∃ ed : PyDate,
      enr = payload ++ [("processed_timestamp", .str (now.isoformat ++ "Z")),
                        ("event_date", .str (PyDate.isoformat ed))]
      ∧ FormatForBigQuery_process (.str c, enr) = .ok [dictSet enr "_table_name" (.str t)]
      ∧ table_branch_rows t [dictSet enr "_table_name" (.str t)] = [enr] := by
  obtain ⟨ed, hshape⟩ := processParsed_ok_shape payload now (.str c) enr henr
  have hset1 : dictSet payload "processed_timestamp" (Json.str (now.isoformat ++ "Z")) =
      payload ++ [("processed_timestamp", Json.str (now.isoformat ++ "Z"))] :=
    dictSet_eq_append _ _ _ h1
  have h2b : "event_date" ∉
      (payload ++ [("processed_timestamp", Json.str (now.isoformat ++ "Z"))]).map Prod.fst := by
    simp [h2]
  have henr2 : enr = payload ++
      [("processed_timestamp", Json.str (now.isoformat ++ "Z")),
       ("event_date", Json.str (PyDate.isoformat ed))] := by
    rw [hshape, hset1, dictSet_eq_append _ _ _ h2b]
    simp
  refine ⟨ed, henr2, by simp [FormatForBigQuery_process, hmap], ?_⟩
  have hfil : filter_table t (dictSet enr "_table_name" (Json.str t)) = true := by
    simp [filter_table, dictGet_dictSet_self, Json.isStr]
  have hkeysenr : "_table_name" ∉ enr.map Prod.fst := by
    rw [henr2]
    simp [h3]
  have hrem : remove_table_name (dictSet enr "_table_name" (Json.str t)) = enr := by
    unfold remove_table_name
    rw [dictErase_dictSet, dictErase_of_not_mem _ _ hkeysenr]
  simp [table_branch_rows, hfil, hrem]

/-- The order payload of C6's witness. -/
def c6_payload : Dict :=
  [("event_type", Json.str "order"), ("order_id", Json.str "o1"),
   ("order_date", Json.str "2024-01-02T03:04:05Z")]

/-- The enriched event the code actually produces for c6_payload at now0. -/
def c6_enriched : Dict :=
  [("event_type", Json.str "order"), ("order_id", Json.str "o1"),
   ("order_date", Json.str "2024-01-02T03:04:05Z"),
   ("processed_timestamp", Json.str "2024-03-05T14:07:22.451000Z"),
   ("event_date", Json.str "2024-01-02")]

/-- Witness for C6 at a concrete order event. -/
theorem warehouse_row_exact_frame_witness :
    ∃ ed : PyDate,
      c6_enriched = c6_payload ++ [("processed_timestamp", Json.str (now0.isoformat ++ "Z")),
        ("event_date", Json.str (PyDate.isoformat ed))]
      ∧ FormatForBigQuery_process (.str "order", c6_enriched) =
          .ok [dictSet c6_enriched "_table_name" (.str "orders")]
      ∧ table_branch_rows "orders" [dictSet c6_enriched "_table_name" (.str "orders")] =
          [c6_enriched] :=
  warehouse_row_exact_frame c6_payload c6_enriched now0 "order" "orders" rfl
    (by decide) (by decide) (by decide) rfl

/-! ## Claim C9 -/

/-- Case analysis: the parsed-payload enrichment either raises (an error
the caller catches), yields nothing, or yields exactly one event. -/
theorem processParsed_cases (j : Json) (now : PyDateTime) :
    (∃ msg, EventProcessor_processParsed j now = .error msg)
    ∨ EventProcessor_processParsed j now = .ok []
    ∨ ∃ et d, EventProcessor_processParsed j now = .ok [(et, d)] := by
  cases j with
  | obj kvs =>
    by_cases ht : ((dictGet kvs "event_type").getD .null).truthy
    · rcases he : event_date_of ((dictGet kvs "event_type").getD Json.null)
          (dictSet kvs "processed_timestamp" (Json.str (now.isoformat ++ "Z"))) now with msg | ed
      · exact Or.inl ⟨msg, by simp [EventProcessor_processParsed, ht, he]⟩
      · refine Or.inr (Or.inr ⟨(dictGet kvs "event_type").getD Json.null,
          dictSet (dictSet kvs "processed_timestamp" (Json.str (now.isoformat ++ "Z")))
            "event_date" (Json.str ed.isoformat), ?_⟩)
        simp [EventProcessor_processParsed, ht, he]
    · refine Or.inr (Or.inl ?_)
      simp [EventProcessor_processParsed, ht]
  | null => exact Or.inl ⟨"AttributeError", rfl⟩
  | bool b => exact Or.inl ⟨"AttributeError", rfl⟩
  | num n => exact Or.inl ⟨"AttributeError", rfl⟩
  | str s => exact Or.inl ⟨"AttributeError", rfl⟩
  | arr xs => exact Or.inl ⟨"AttributeError", rfl⟩

/-- C9: on every raw input byte string — non-UTF-8, non-JSON or arbitrary
JSON — the enrichment step returns without raising, yielding either nothing
or a single enriched event, and likewise the object-store formatter yields
at most one record per event; a bad message is isolated, never crashing the
pipeline. -/
theorem enrichment_never_raises (element : ByteArray) (now : PyDateTime) :
    (EventProcessor_process element now = []
      ∨ ∃ et d, EventProcessor_process element now = [(et, d)])
    ∧ (∀ e : Json × Dict, FormatForGCS_process e now = []
      ∨ ∃ r, FormatForGCS_process e now = [r]) := by
  constructor
  · rcases hu : String.fromUTF8? element with _ | s
    · refine Or.inl ?_
      unfold EventProcessor_process EventProcessor_processBytes
      simp only [hu]
    · rcases hj : jsonParse s with _ | j
      · refine Or.inl ?_
        unfold EventProcessor_process EventProcessor_processBytes
        simp only [hu, hj]
      · rcases processParsed_cases j now with ⟨msg, hm⟩ | h0 | ⟨et, d, h1⟩
        · refine Or.inl ?_
          unfold EventProcessor_process EventProcessor_processBytes
          simp only [hu, hj, hm]
        · refine Or.inl ?_
          unfold EventProcessor_process EventProcessor_processBytes
          simp only [hu, hj, h0]
        · refine Or.inr ⟨et, d, ?_⟩
          unfold EventProcessor_process EventProcessor_processBytes
          simp only [hu, hj, h1]
  · intro e
    unfold FormatForGCS_process
    cases FormatForGCS_body e now with
    | ok r => exact Or.inr ⟨r, rfl⟩
    | error msg => exact Or.inl rfl
